import Mathlib

/-!
Shallow embedding of the exercise-tracker service in src/index.js (the
primary implementation, lines 1-213; the file also carries a second
historical snapshot, noted where a claim depends on it).

Modelling conventions:
* Request body / query parameters arrive as strings (urlencoded form data);
  a missing or empty field is modelled as the empty string, matching the
  JavaScript falsiness tests (`!username`, `!description`, `!duration`,
  `if (from)`, `if (limit && ...)`).
* Mongo ObjectIds are modelled as natural numbers handed out by a
  store-side counter (`Store.nextId`); the claims never exercise the
  malformed-ObjectId branch.
* JavaScript Date values are integers: milliseconds since the Unix epoch,
  with the server clock in UTC.  `new Date("yyyy-mm-dd")` parses the
  date-only ISO form to UTC midnight; `Date.prototype.toDateString`
  renders "Www Mmm DD YYYY".
* `Number(s)` and `parseInt(s)` are modelled on the decimal fragment
  (optional sign, digits, optional fractional part) that the service's
  inputs live in; hex/exponent/Infinity spellings are outside the model.
-/

/-- True for ASCII decimal digit characters. -/
def isDigitCh (c : Char) : Bool := '0' ≤ c && c ≤ '9'

/-- True for the whitespace characters trimmed by JS string-to-number coercion. -/
def isSpaceCh (c : Char) : Bool := c = ' ' || c = '\t' || c = '\n' || c = '\r'

/-- Numeric value of a digit string (most significant first). -/
def digitsToNat (cs : List Char) : Nat :=
  cs.foldl (fun a c => 10 * a + (c.toNat - 48)) 0

/-- Both-ends whitespace trim on a character list. -/
def trimCh (cs : List Char) : List Char :=
  ((cs.dropWhile isSpaceCh).reverse.dropWhile isSpaceCh).reverse

/-- Models `!isNaN(Number(s))` on the decimal fragment: after trimming and an
optional sign, the string must be `digits`, `digits.digits?` or `.digits`
(the empty string converts to 0, hence is numeric). -/
def jsNumberValid (s : String) : Bool :=
  let cs := trimCh s.data
  if cs.isEmpty then true
  else
    let cs := match cs with
      | c :: rest => if c = '+' || c = '-' then rest else c :: rest
      | [] => []
    let intPart := cs.takeWhile isDigitCh
    let rest := cs.dropWhile isDigitCh
    match rest with
    | [] => !intPart.isEmpty
    | '.' :: frac => (!intPart.isEmpty || !frac.isEmpty) && frac.all isDigitCh
    | _ => false

/-- Models `parseInt(s)` (radix 10): after trimming and an optional sign, read
the longest digit prefix; `none` is NaN (no digits). -/
def jsParseInt (s : String) : Option Int :=
  let cs := trimCh s.data
  match cs with
  | '-' :: rest =>
    let ds := rest.takeWhile isDigitCh
    if ds.isEmpty then none else some (-(digitsToNat ds : Int))
  | '+' :: rest =>
    let ds := rest.takeWhile isDigitCh
    if ds.isEmpty then none else some (digitsToNat ds)
  | _ =>
    let ds := cs.takeWhile isDigitCh
    if ds.isEmpty then none else some (digitsToNat ds)

/-- Gregorian leap-year test. -/
def isLeapYear (y : Int) : Bool := (y % 4 == 0 && y % 100 != 0) || y % 400 == 0

/-- Number of days in month `m` (1-12) of year `y`. -/
def daysInMonth (y : Int) (m : Nat) : Nat :=
  if m = 2 then (if isLeapYear y then 29 else 28)
  else if m = 4 || m = 6 || m = 9 || m = 11 then 30
  else 31

/-- Days since the Unix epoch of the civil date `y-m-d` (proleptic Gregorian). -/
def daysFromCivil (y : Int) (m d : Nat) : Int :=
  let y2 : Int := if m ≤ 2 then y - 1 else y
  let era : Int := Int.fdiv y2 400
  let yoe : Int := y2 - era * 400
  let mp : Int := if m > 2 then (m : Int) - 3 else (m : Int) + 9
  let doy : Int := (153 * mp + 2) / 5 + (d : Int) - 1
  let doe : Int := yoe * 365 + yoe / 4 - yoe / 100 + doy
  era * 146097 + doe - 719468

/-- Civil date `(year, month, day)` of a count of days since the Unix epoch. -/
def civilFromDays (z : Int) : Int × Nat × Nat :=
  let z2 := z + 719468
  let era := Int.fdiv z2 146097
  let doe := z2 - era * 146097
  let yoe := (doe - doe / 1460 + doe / 36524 - doe / 146096) / 365
  let y := yoe + era * 400
  let doy := doe - (365 * yoe + yoe / 4 - yoe / 100)
  let mp := (5 * doy + 2) / 153
  let d := doy - (153 * mp + 2) / 5 + 1
  let m := if mp < 10 then mp + 3 else mp - 9
  (if m ≤ 2 then y + 1 else y, m.toNat, d.toNat)

/-- Three-letter weekday names, indexed with 0 = Sunday. -/
def weekdayName : Nat → String
  | 0 => "Sun" | 1 => "Mon" | 2 => "Tue" | 3 => "Wed"
  | 4 => "Thu" | 5 => "Fri" | _ => "Sat"

/-- Three-letter month names, indexed from 1 = January. -/
def monthName : Nat → String
  | 1 => "Jan" | 2 => "Feb" | 3 => "Mar" | 4 => "Apr"
  | 5 => "May" | 6 => "Jun" | 7 => "Jul" | 8 => "Aug"
  | 9 => "Sep" | 10 => "Oct" | 11 => "Nov" | _ => "Dec"

/-- Zero-pad a day-of-month to two digits. -/
def pad2 (n : Nat) : String := if n < 10 then "0" ++ toString n else toString n

/-- Zero-pad a year to four digits. -/
def pad4 (n : Nat) : String :=
  if n < 10 then "000" ++ toString n
  else if n < 100 then "00" ++ toString n
  else if n < 1000 then "0" ++ toString n
  else toString n

/-- Models `Date.prototype.toDateString` (UTC server clock): renders the
calendar-date string "Www Mmm DD YYYY" with no time component. -/
def toDateString (ms : Int) : String :=
  let z := Int.fdiv ms 86400000
  let c := civilFromDays z
  let wd := ((z + 4).emod 7).toNat
  weekdayName wd ++ " " ++ monthName c.2.1 ++ " " ++ pad2 c.2.2 ++ " " ++
    (if c.1 < 0 then "-" ++ pad4 (-c.1).toNat else pad4 c.1.toNat)

/-- Split a character list into the groups separated by dashes. -/
def splitDash : List Char → List (List Char)
  | [] => [[]]
  | c :: rest =>
    let r := splitDash rest
    if c = '-' then [] :: r
    else
      match r with
      | [] => [[c]]
      | g :: gs => (c :: g) :: gs

/-- Models `new Date(s)` on the date-only ISO form `yyyy-mm-dd` accepted by
the API (per the spec's endpoint table): UTC midnight of that civil date, in
milliseconds since the epoch; `none` is an Invalid Date. -/
def jsParseDate (s : String) : Option Int :=
  match splitDash s.data with
  | [ys, ms, ds] =>
    if ys.length = 4 && ms.length = 2 && ds.length = 2
        && ys.all isDigitCh && ms.all isDigitCh && ds.all isDigitCh then
      let y : Int := (digitsToNat ys : Int)
      let m := digitsToNat ms
      let d := digitsToNat ds
      if 1 ≤ m && m ≤ 12 && 1 ≤ d && d ≤ daysInMonth y m then
        some (daysFromCivil y m d * 86400000)
      else none
    else none
  | _ => none

/-- A stored user document: `{ _id, username }` (userSchema, src/index.js:22-28). -/
structure User where
  _id : Nat
  username : String
deriving DecidableEq, Repr

/-- A stored exercise document: `{ _id, userId, description, duration, date }`
(exerciseSchema, src/index.js:30-48). -/
structure Exercise where
  _id : Nat
  userId : Nat
  description : String
  duration : Int
  date : Int
deriving DecidableEq, Repr

/-- The document store: the User and Exercise collections plus the id counter
standing in for Mongo ObjectId generation. -/
structure Store where
  users : List User
  exercises : List Exercise
  nextId : Nat
deriving DecidableEq, Repr

/-- Models `User.findById(userId)`. -/
def findUser (s : Store) (userId : Nat) : Option User :=
  s.users.find? (fun u => u._id == userId)

/-- Outcome of the POST /api/users handler (src/index.js:60-87): success JSON,
400 "Username is required", or 400 "Username already exists" (E11000). -/
inductive CreateUserResult where
  | ok (username : String) (_id : Nat)
  | validationError
  | duplicateError
deriving DecidableEq, Repr

/-- POST /api/users (src/index.js:60-87): reject a falsy username, otherwise
save; the unique index on `username` (src/index.js:26) makes the save of a
duplicate throw error code 11000, answered with 400 "Username already
exists" and leaving the store unchanged. -/
def createUser (s : Store) (username : String) : CreateUserResult × Store :=
  if username = "" then (.validationError, s)
  else if s.users.any (fun u => u.username == username) then (.duplicateError, s)
  else
    (.ok username s.nextId,
     { s with users := s.users ++ [⟨s.nextId, username⟩], nextId := s.nextId + 1 })

/-- Outcome of the POST /api/users/:_id/exercises handler
(src/index.js:100-150): the success JSON in its response field order, or the
404 / 400 / 500 error branches. -/
inductive AddExerciseResult where
  | ok (_id : Nat) (username : String) (date : String) (duration : Int) (description : String)
  | notFound
  | validationError
  | invalidDate
  | serverError
deriving DecidableEq, Repr

/-- POST /api/users/:_id/exercises (src/index.js:100-150): look up the user
(404 when absent); reject falsy description/duration or non-numeric duration
(400); resolve the date (`new Date(date)` when supplied, else the current
time `now`), rejecting an Invalid Date (400); store the exercise with
`parseInt(duration)` (a NaN there fails the Number cast on save, surfacing
as a 500); answer with the user's id and username, `toDateString` of the
stored date, and the stored duration and description. -/
def addExercise (s : Store) (userId : Nat) (description duration date : String)
    (now : Int) : AddExerciseResult × Store :=
  match findUser s userId with
  | none => (.notFound, s)
  | some user =>
    if description = "" || duration = "" || !jsNumberValid duration then
      (.validationError, s)
    else
      match (if date = "" then some now else jsParseDate date) with
      | none => (.invalidDate, s)
      | some exerciseDate =>
        match jsParseInt duration with
        | none => (.serverError, s)
        | some n =>
          (.ok user._id user.username (toDateString exerciseDate) n description,
           { s with
              exercises := s.exercises ++ [⟨s.nextId, userId, description, n, exerciseDate⟩],
              nextId := s.nextId + 1 })

/-- One element of the `log` array in the GET logs response. -/
structure LogEntry where
  description : String
  duration : Int
  date : String
deriving DecidableEq, Repr

/-- Outcome of the GET /api/users/:_id/logs handler (src/index.js:153-208). -/
inductive GetLogResult where
  | ok (_id : Nat) (username : String) (count : Nat) (log : List LogEntry)
  | notFound
  | serverError
deriving DecidableEq, Repr

/-- The Mongo query filter built at src/index.js:164-177: userId must match,
and when a `from`/`to` bound is present the exercise date must satisfy
`$gte` / `$lte` (inclusive). -/
def exerciseMatches (userId : Nat) (fromD toD : Option Int) (e : Exercise) : Bool :=
  e.userId == userId
    && (match fromD with | none => true | some d => d ≤ e.date)
    && (match toD with | none => true | some d => e.date ≤ d)

/-- Resolve one of the `from`/`to` query strings: absent (falsy) means no
bound; a present but unparseable date casts to an Invalid Date inside the
query, which the store rejects (the handler's catch answers 500). -/
def parseBound (q : String) : Option (Option Int) :=
  if q = "" then some none
  else
    match jsParseDate q with
    | none => none
    | some d => some (some d)

/-- Models `.sort({ date: 1 })`: insert an exercise into a date-ascending list. -/
def insertByDate (e : Exercise) : List Exercise → List Exercise
  | [] => [e]
  | x :: xs => if e.date ≤ x.date then e :: x :: xs else x :: insertByDate e xs

/-- Models `.sort({ date: 1 })`: sort exercises by date ascending. -/
def sortByDate : List Exercise → List Exercise
  | [] => []
  | x :: xs => insertByDate x (sortByDate xs)

/-- Models `cursor.limit(n)`: Mongo treats a limit of 0 as "no limit", and a
negative limit as a hard cap of its absolute value. -/
def mongoLimit (n : Int) (xs : List Exercise) : List Exercise :=
  if n = 0 then xs else xs.take n.natAbs

/-- The limit step at src/index.js:181-183: applied only when `limit` is
truthy and `parseInt(limit)` is not NaN. -/
def applyLimit (limitQ : String) (xs : List Exercise) : List Exercise :=
  if limitQ = "" then xs
  else
    match jsParseInt limitQ with
    | none => xs
    | some n => mongoLimit n xs

/-- The matching exercises of one user, date-range filtered and sorted
ascending (the query run at src/index.js:180-185). -/
def matchingSorted (s : Store) (userId : Nat) (fromD toD : Option Int) : List Exercise :=
  sortByDate (s.exercises.filter (exerciseMatches userId fromD toD))

/-- Shape one stored exercise for the `log` array (src/index.js:188-192). -/
def formatEntry (e : Exercise) : LogEntry :=
  ⟨e.description, e.duration, toDateString e.date⟩

/-- GET /api/users/:_id/logs (src/index.js:153-208): look up the user (404
when absent); build the date filter from `from`/`to`; run the query sorted
by date ascending with the optional limit; shape each record with
`toDateString`; answer with the user's id and username, the count of
returned entries and the log array. -/
def getLog (s : Store) (userId : Nat) (fromQ toQ limitQ : String) : GetLogResult :=
  match findUser s userId with
  | none => .notFound
  | some user =>
    match parseBound fromQ, parseBound toQ with
    | some fromD, some toD =>
      .ok user._id user.username
        ((applyLimit limitQ (matchingSorted s userId fromD toD)).map formatEntry).length
        ((applyLimit limitQ (matchingSorted s userId fromD toD)).map formatEntry)
    | _, _ => .serverError

/-- The logs handler as a store transition: it performs no writes, so the
store component of the outcome is the input store (src/index.js:153-208 only
ever calls `find`). -/
def getLogSt (s : Store) (userId : Nat) (fromQ toQ limitQ : String) :
    GetLogResult × Store :=
  (getLog s userId fromQ toQ limitQ, s)

/-! Helper lemmas about the sort and limit steps of the log query. -/

/-- Inserting into the date-sorted list is a permutation of consing. -/
theorem insertByDate_perm (e : Exercise) (l : List Exercise) :
    (insertByDate e l).Perm (e :: l) := by
  induction l with
  | nil => exact List.Perm.refl _
  | cons x xs ih =>
    simp only [insertByDate]
    split
    · exact List.Perm.refl _
    · exact (ih.cons x).trans (List.Perm.swap e x xs)

/-- The date sort is a permutation of its input. -/
theorem sortByDate_perm (l : List Exercise) : (sortByDate l).Perm l := by
  induction l with
  | nil => exact List.Perm.refl _
  | cons x xs ih =>
    show (insertByDate x (sortByDate xs)).Perm (x :: xs)
    exact (insertByDate_perm x (sortByDate xs)).trans (ih.cons x)

/-- Inserting into a date-ascending list keeps it date-ascending. -/
theorem insertByDate_pairwise (e : Exercise) (l : List Exercise)
    (h : l.Pairwise (fun a b => a.date ≤ b.date)) :
    (insertByDate e l).Pairwise (fun a b => a.date ≤ b.date) := by
  induction l with
  | nil => simp [insertByDate]
  | cons x xs ih =>
    rw [List.pairwise_cons] at h
    obtain ⟨hx, hxs⟩ := h
    simp only [insertByDate]
    split
    case isTrue hle =>
      rw [List.pairwise_cons]
      refine ⟨?_, List.pairwise_cons.mpr ⟨hx, hxs⟩⟩
      intro b hb
      rcases List.mem_cons.mp hb with rfl | hb2
      · exact hle
      · exact le_trans hle (hx b hb2)
    case isFalse hgt =>
      rw [List.pairwise_cons]
      refine ⟨?_, ih hxs⟩
      intro b hb
      rcases List.mem_cons.mp ((insertByDate_perm e xs).mem_iff.mp hb) with rfl | hb2
      · exact le_of_not_le hgt
      · exact hx b hb2

/-- The date sort produces a date-ascending list. -/
theorem sortByDate_pairwise (l : List Exercise) :
    (sortByDate l).Pairwise (fun a b => a.date ≤ b.date) := by
  induction l with
  | nil => exact List.Pairwise.nil
  | cons x xs ih => exact insertByDate_pairwise x (sortByDate xs) ih

/-- A record surviving the limit step came from the query result. -/
theorem mongoLimit_subset {n : Int} {xs : List Exercise} {a : Exercise}
    (h : a ∈ mongoLimit n xs) : a ∈ xs := by
  unfold mongoLimit at h
  split at h
  · exact h
  · exact List.take_subset _ _ h

/-- A record surviving the optional limit step came from the query result. -/
theorem applyLimit_subset {q : String} {xs : List Exercise} {a : Exercise}
    (h : a ∈ applyLimit q xs) : a ∈ xs := by
  unfold applyLimit at h
  split at h
  · exact h
  · split at h
    · exact h
    · exact mongoLimit_subset h

/-! Concrete sample data for the witnesses. -/

/-- Sample user for the concrete witnesses. -/
def sampleUser : User := ⟨1, "alice"⟩

/-- Store with no users. -/
def emptyStore : Store := ⟨[], [], 1⟩

/-- Store holding just the sample user. -/
def oneUserStore : Store := ⟨[sampleUser], [], 2⟩

/-- Store with the sample user and two exercises (2023-01-01 and 2023-01-10). -/
def twoExStore : Store :=
  ⟨[sampleUser],
   [⟨2, 1, "e1", 5, 1672531200000⟩, ⟨3, 1, "e2", 10, 1673308800000⟩], 4⟩

/-- C6: adding an exercise for a user id that refers to no stored user fails
with the 404 NotFound branch and leaves the whole store, in particular the
exercise collection, unchanged. -/
theorem addExercise_missing_user (s : Store) (userId : Nat)
    (desc dur ds : String) (now : Int) (hfu : findUser s userId = none) :
    addExercise s userId desc dur ds now = (.notFound, s) := by
  simp [addExercise, hfu]

/-- Witness for addExercise_missing_user: user id 7 is not in the store. -/
theorem addExercise_missing_user_witness :
    findUser oneUserStore 7 = none
    ∧ addExercise oneUserStore 7 "run" "30" "2023-01-15" 0 = (.notFound, oneUserStore) :=
  ⟨by decide, addExercise_missing_user oneUserStore 7 "run" "30" "2023-01-15" 0 (by decide)⟩

/-- C9: no operation of the API mutates or deletes a stored user: the
add-exercise handler leaves the user collection unchanged, the logs handler
performs no store write at all, and the create-user handler at most appends
one freshly created user. -/
theorem api_preserves_users (s : Store) (userId : Nat)
    (desc dur ds fq tq lq un : String) (now : Int) :
    (addExercise s userId desc dur ds now).2.users = s.users
    ∧ getLogSt s userId fq tq lq = (getLog s userId fq tq lq, s)
    ∧ ((createUser s un).2.users = s.users
        ∨ (createUser s un).2.users = s.users ++ [⟨s.nextId, un⟩]) := by
  refine ⟨?_, rfl, ?_⟩
  · unfold addExercise
    cases findUser s userId with
    | none => rfl
    | some u =>
      dsimp only
      split
      · rfl
      · split
        · rfl
        · split
          · rfl
          · rfl
  · unfold createUser
    split
    · exact Or.inl rfl
    · split
      · exact Or.inl rfl
      · exact Or.inr rfl

/-- C10: a limit of "0" passes the handler's numeric test and is handed to
the store, which treats a zero limit as "no limit": the call returns all
matching exercises, exactly as the call without a limit does. -/
theorem getLog_limit_zero_returns_all (s : Store) (userId : Nat) (u : User)
    (fq tq : String) (fromD toD : Option Int)
    (hfu : findUser s userId = some u)
    (hpf : parseBound fq = some fromD) (hpt : parseBound tq = some toD) :
    getLog s userId fq tq "0"
      = .ok u._id u.username
          ((matchingSorted s userId fromD toD).map formatEntry).length
          ((matchingSorted s userId fromD toD).map formatEntry)
    ∧ getLog s userId fq tq "0" = getLog s userId fq tq "" := by
  have hne : ("0" : String) ≠ "" := by decide
  have hp : jsParseInt "0" = some 0 := by decide
  have h0 : applyLimit "0" (matchingSorted s userId fromD toD)
      = matchingSorted s userId fromD toD := by
    simp [applyLimit, hne, hp, mongoLimit]
  have h1 : applyLimit "" (matchingSorted s userId fromD toD)
      = matchingSorted s userId fromD toD := by
    simp [applyLimit]
  constructor
  · simp [getLog, hfu, hpf, hpt, h0]
  · simp [getLog, hfu, hpf, hpt, h0, h1]

/-- Witness for getLog_limit_zero_returns_all: with two stored exercises and
limit "0" both come back, the same response as with no limit. -/
theorem getLog_limit_zero_returns_all_witness :
    (findUser twoExStore 1 = some sampleUser
      ∧ parseBound "" = (some none : Option (Option Int)))
    ∧ getLog twoExStore 1 "" "" "0"
        = .ok 1 "alice" 2 [⟨"e1", 5, "Sun Jan 01 2023"⟩, ⟨"e2", 10, "Tue Jan 10 2023"⟩]
    ∧ getLog twoExStore 1 "" "" "0"
        = .ok sampleUser._id sampleUser.username
            ((matchingSorted twoExStore 1 none none).map formatEntry).length
            ((matchingSorted twoExStore 1 none none).map formatEntry)
    ∧ getLog twoExStore 1 "" "" "0" = getLog twoExStore 1 "" "" "" :=
  ⟨⟨by decide, by decide⟩, by decide,
   (getLog_limit_zero_returns_all twoExStore 1 sampleUser "" "" none none
      (by decide) (by decide) (by decide)).1,
   (getLog_limit_zero_returns_all twoExStore 1 sampleUser "" "" none none
      (by decide) (by decide) (by decide)).2⟩

/-- C1: starting from a store without the username, the first create succeeds
and a second create of the same username hits the unique index (error code
11000, answered 400 "Username already exists") and stores nothing, so
exactly one user with that username is stored after both calls. -/
theorem createUser_duplicate_username (s : Store) (un : String) (hne : un ≠ "")
    (h0 : (s.users.filter (fun u => u.username == un)).length = 0) :
    (createUser s un).1 = .ok un s.nextId
    ∧ (createUser (createUser s un).2 un).1 = .duplicateError
    ∧ ((createUser (createUser s un).2 un).2.users.filter
        (fun u => u.username == un)).length = 1 := by
  have hfil : s.users.filter (fun u => u.username == un) = [] :=
    List.length_eq_zero.mp h0
  have hnone : s.users.any (fun u => u.username == un) = false := by
    rw [List.any_eq_false]
    intro x hx hpx
    have hmem : x ∈ s.users.filter (fun u => u.username == un) :=
      List.mem_filter.mpr ⟨hx, hpx⟩
    rw [hfil] at hmem
    exact absurd hmem (List.not_mem_nil x)
  have h1 : createUser s un
      = (.ok un s.nextId,
         { s with users := s.users ++ [⟨s.nextId, un⟩], nextId := s.nextId + 1 }) := by
    simp [createUser, hne, hnone]
  have hsome : (s.users ++ [⟨s.nextId, un⟩] : List User).any
      (fun u => u.username == un) = true := by
    rw [List.any_eq_true]
    exact ⟨⟨s.nextId, un⟩, by simp, by simp⟩
  have h2 : createUser (createUser s un).2 un = (.duplicateError, (createUser s un).2) := by
    rw [h1]
    simp [createUser, hne, hsome]
  refine ⟨by rw [h1], by rw [h2], ?_⟩
  rw [h2, h1]
  simp [List.filter_append, hfil]

/-- Witness for createUser_duplicate_username: two creates of "alice" on the
empty store. -/
theorem createUser_duplicate_username_witness :
    (("alice" : String) ≠ ""
      ∧ (emptyStore.users.filter (fun u => u.username == "alice")).length = 0)
    ∧ (createUser emptyStore "alice").1 = .ok "alice" 1
    ∧ (createUser (createUser emptyStore "alice").2 "alice").1 = .duplicateError
    ∧ ((createUser (createUser emptyStore "alice").2 "alice").2.users.filter
        (fun u => u.username == "alice")).length = 1 :=
  ⟨⟨by decide, by decide⟩,
   (createUser_duplicate_username emptyStore "alice" (by decide) (by decide)).1,
   (createUser_duplicate_username emptyStore "alice" (by decide) (by decide)).2.1,
   (createUser_duplicate_username emptyStore "alice" (by decide) (by decide)).2.2⟩

/-- C8: creating a user with a missing or empty username fails with the 400
validation branch and stores nothing; with a fresh non-empty username the
handler answers exactly that username with a freshly assigned id carried by
no existing user, and appends exactly that one user. -/
theorem createUser_validation_and_fresh_id (s : Store) (un : String)
    (hinv : ∀ u ∈ s.users, u._id < s.nextId)
    (hne : un ≠ "") (hfresh : ∀ u ∈ s.users, u.username ≠ un) :
    createUser s "" = (.validationError, s)
    ∧ (createUser s un).1 = .ok un s.nextId
    ∧ (∀ u ∈ s.users, u._id ≠ s.nextId)
    ∧ (createUser s un).2.users = s.users ++ [⟨s.nextId, un⟩] := by
  have hnone : s.users.any (fun u => u.username == un) = false := by
    rw [List.any_eq_false]
    intro x hx
    simp only [beq_iff_eq]
    exact hfresh x hx
  refine ⟨by simp [createUser], ?_, ?_, ?_⟩
  · simp [createUser, hne, hnone]
  · intro u hu
    exact Nat.ne_of_lt (hinv u hu)
  · simp [createUser, hne, hnone]

/-- Witness for createUser_validation_and_fresh_id: creating "bob" next to
the stored "alice". -/
theorem createUser_validation_and_fresh_id_witness :
    ((∀ u ∈ oneUserStore.users, u._id < oneUserStore.nextId)
      ∧ ("bob" : String) ≠ ""
      ∧ (∀ u ∈ oneUserStore.users, u.username ≠ "bob"))
    ∧ createUser oneUserStore "" = (.validationError, oneUserStore)
    ∧ (createUser oneUserStore "bob").1 = .ok "bob" 2
    ∧ (∀ u ∈ oneUserStore.users, u._id ≠ 2)
    ∧ (createUser oneUserStore "bob").2.users = oneUserStore.users ++ [⟨2, "bob"⟩] :=
  ⟨⟨by decide, by decide, by decide⟩,
   (createUser_validation_and_fresh_id oneUserStore "bob"
      (by decide) (by decide) (by decide)).1,
   (createUser_validation_and_fresh_id oneUserStore "bob"
      (by decide) (by decide) (by decide)).2.1,
   (createUser_validation_and_fresh_id oneUserStore "bob"
      (by decide) (by decide) (by decide)).2.2.1,
   (createUser_validation_and_fresh_id oneUserStore "bob"
      (by decide) (by decide) (by decide)).2.2.2⟩

/-- Store with the sample user and exercises on 2023-01-01, 2023-01-10 and
2023-01-20. -/
def threeExStore : Store :=
  ⟨[sampleUser],
   [⟨2, 1, "e1", 5, 1672531200000⟩, ⟨3, 1, "e2", 10, 1673308800000⟩,
    ⟨4, 1, "e3", 15, 1674172800000⟩], 5⟩

/-- Store with the sample user and five exercises stored in scrambled date
order (2023-01-10, 01-01, 01-20, 01-05, 01-15). -/
def fiveExStore : Store :=
  ⟨[sampleUser],
   [⟨2, 1, "e3", 30, 1673308800000⟩, ⟨3, 1, "e1", 30, 1672531200000⟩,
    ⟨4, 1, "e5", 30, 1674172800000⟩, ⟨5, 1, "e2", 30, 1672876800000⟩,
    ⟨6, 1, "e4", 30, 1673740800000⟩], 7⟩

/-- C3: with both bounds supplied and parseable the log query keeps exactly
the user's exercises whose date lies between the parsed bounds, both ends
inclusive, and answers them with their count. -/
theorem getLog_date_range_inclusive (s : Store) (userId : Nat) (u : User)
    (fq tq : String) (fd td : Int)
    (hfu : findUser s userId = some u)
    (hfne : fq ≠ "") (htne : tq ≠ "")
    (hf : jsParseDate fq = some fd) (ht : jsParseDate tq = some td) :
    ∃ log : List Exercise, getLog s userId fq tq ""
        = .ok u._id u.username log.length (log.map formatEntry)
      ∧ ∀ e, e ∈ log ↔ e ∈ s.exercises ∧ e.userId = userId ∧ fd ≤ e.date ∧ e.date ≤ td := by
  have hpf : parseBound fq = some (some fd) := by simp [parseBound, hfne, hf]
  have hpt : parseBound tq = some (some td) := by simp [parseBound, htne, ht]
  refine ⟨matchingSorted s userId (some fd) (some td), ?_, ?_⟩
  · have h1 : applyLimit "" (matchingSorted s userId (some fd) (some td))
        = matchingSorted s userId (some fd) (some td) := by
      simp [applyLimit]
    simp [getLog, hfu, hpf, hpt, h1]
  · intro e
    rw [matchingSorted, (sortByDate_perm _).mem_iff, List.mem_filter]
    simp [exerciseMatches, and_assoc]

/-- Witness for getLog_date_range_inclusive: range 2023-01-05 to 2023-01-15
keeps only the 2023-01-10 exercise, count 1. -/
theorem getLog_date_range_inclusive_witness :
    (findUser threeExStore 1 = some sampleUser
      ∧ jsParseDate "2023-01-05" = some 1672876800000
      ∧ jsParseDate "2023-01-15" = some 1673740800000)
    ∧ getLog threeExStore 1 "2023-01-05" "2023-01-15" ""
        = .ok 1 "alice" 1 [⟨"e2", 10, "Tue Jan 10 2023"⟩]
    ∧ (∃ log : List Exercise, getLog threeExStore 1 "2023-01-05" "2023-01-15" ""
          = .ok sampleUser._id sampleUser.username log.length (log.map formatEntry)
        ∧ ∀ e, e ∈ log ↔ e ∈ threeExStore.exercises
            ∧ e.userId = 1 ∧ 1672876800000 ≤ e.date ∧ e.date ≤ 1673740800000) :=
  ⟨⟨by decide, by decide, by decide⟩, by decide,
   getLog_date_range_inclusive threeExStore 1 sampleUser "2023-01-05" "2023-01-15"
     1672876800000 1673740800000 (by decide) (by decide) (by decide) (by decide) (by decide)⟩

/-- C4: a positive numeric limit is applied after the date-ascending sort:
the response is exactly the first limit-many entries of the sorted matching
list, which is ascending by date and a permutation of all matching
exercises — so the earliest ones are kept. -/
theorem getLog_limit_earliest (s : Store) (userId : Nat) (u : User)
    (fq tq lq : String) (fromD toD : Option Int) (n : Int)
    (hfu : findUser s userId = some u)
    (hpf : parseBound fq = some fromD) (hpt : parseBound tq = some toD)
    (hlne : lq ≠ "") (hl : jsParseInt lq = some n) (hpos : 0 < n) :
    getLog s userId fq tq lq
      = .ok u._id u.username
          ((matchingSorted s userId fromD toD).take n.natAbs).length
          (((matchingSorted s userId fromD toD).take n.natAbs).map formatEntry)
    ∧ (matchingSorted s userId fromD toD).Pairwise (fun a b => a.date ≤ b.date)
    ∧ (matchingSorted s userId fromD toD).Perm
        (s.exercises.filter (exerciseMatches userId fromD toD)) := by
  have hn0 : n ≠ 0 := by omega
  have hlim : applyLimit lq (matchingSorted s userId fromD toD)
      = (matchingSorted s userId fromD toD).take n.natAbs := by
    simp [applyLimit, hlne, hl, mongoLimit, hn0]
  refine ⟨?_, sortByDate_pairwise _, sortByDate_perm _⟩
  simp [getLog, hfu, hpf, hpt, hlim]

/-- Witness for getLog_limit_earliest: limit "2" on five exercises returns
the two earliest by date. -/
theorem getLog_limit_earliest_witness :
    (findUser fiveExStore 1 = some sampleUser ∧ jsParseInt "2" = some 2)
    ∧ getLog fiveExStore 1 "" "" "2"
        = .ok 1 "alice" 2 [⟨"e1", 30, "Sun Jan 01 2023"⟩, ⟨"e2", 30, "Thu Jan 05 2023"⟩]
    ∧ (getLog fiveExStore 1 "" "" "2"
          = .ok sampleUser._id sampleUser.username
              ((matchingSorted fiveExStore 1 none none).take (2 : Int).natAbs).length
              (((matchingSorted fiveExStore 1 none none).take (2 : Int).natAbs).map formatEntry)
        ∧ (matchingSorted fiveExStore 1 none none).Pairwise (fun a b => a.date ≤ b.date)
        ∧ (matchingSorted fiveExStore 1 none none).Perm
            (fiveExStore.exercises.filter (exerciseMatches 1 none none))) :=
  ⟨⟨by decide, by decide⟩, by decide,
   getLog_limit_earliest fiveExStore 1 sampleUser "" "" "2" none none 2
     (by decide) (by decide) (by decide) (by decide) (by decide) (by decide)⟩

/-- C2: a successful add-exercise response renders its date through
toDateString (the calendar-date string, never an ISO or timestamp form),
with date "2023-01-15" coming back exactly as "Sun Jan 15 2023"; and every
entry a log call returns carries the toDateString rendering of some stored
exercise date. -/
theorem exercise_date_calendar_string (s : Store) (userId : Nat) (u : User)
    (desc dur ds : String) (now ms n : Int)
    (hfu : findUser s userId = some u) (hdesc : desc ≠ "") (hdur : dur ≠ "")
    (hnum : jsNumberValid dur = true) (hn : jsParseInt dur = some n)
    (hdsne : ds ≠ "") (hms : jsParseDate ds = some ms) :
    (addExercise s userId desc dur ds now).1
        = .ok u._id u.username (toDateString ms) n desc
    ∧ (addExercise s userId desc dur "2023-01-15" now).1
        = .ok u._id u.username "Sun Jan 15 2023" n desc
    ∧ (∀ uid2 fq tq lq i un c log e, getLog s uid2 fq tq lq = .ok i un c log →
        e ∈ log → ∃ ex, ex ∈ s.exercises ∧ e.date = toDateString ex.date) := by
  refine ⟨?_, ?_, ?_⟩
  · simp [addExercise, hfu, hdesc, hdur, hnum, hn, hdsne, hms]
  · have h15 : jsParseDate "2023-01-15" = some 1673740800000 := by decide
    have hts : toDateString 1673740800000 = "Sun Jan 15 2023" := by decide
    have hne : ("2023-01-15" : String) ≠ "" := by decide
    simp [addExercise, hfu, hdesc, hdur, hnum, hn, hne, h15, hts]
  · intro uid2 fq tq lq i un c log e hok he
    cases hfu2 : findUser s uid2 with
    | none => simp [getLog, hfu2] at hok
    | some u2 =>
      cases hpf : parseBound fq with
      | none => simp [getLog, hfu2, hpf] at hok
      | some fd =>
        cases hpt : parseBound tq with
        | none => simp [getLog, hfu2, hpf, hpt] at hok
        | some td =>
          simp only [getLog, hfu2, hpf, hpt, GetLogResult.ok.injEq] at hok
          obtain ⟨-, -, -, hlog⟩ := hok
          subst hlog
          obtain ⟨ex, hex, rfl⟩ := List.mem_map.mp he
          refine ⟨ex, ?_, rfl⟩
          exact (List.mem_filter.mp
            ((sortByDate_perm _).mem_iff.mp (applyLimit_subset hex))).1

/-- Witness for exercise_date_calendar_string at description "run",
duration "30", date "2023-01-15". -/
theorem exercise_date_calendar_string_witness :
    (findUser oneUserStore 1 = some sampleUser
      ∧ jsNumberValid "30" = true ∧ jsParseInt "30" = some 30
      ∧ jsParseDate "2023-01-15" = some 1673740800000)
    ∧ (addExercise oneUserStore 1 "run" "30" "2023-01-15" 0).1
        = .ok sampleUser._id sampleUser.username (toDateString 1673740800000) 30 "run"
    ∧ (addExercise oneUserStore 1 "run" "30" "2023-01-15" 0).1
        = .ok sampleUser._id sampleUser.username "Sun Jan 15 2023" 30 "run"
    ∧ (∀ uid2 fq tq lq i un c log e,
        getLog oneUserStore uid2 fq tq lq = .ok i un c log →
        e ∈ log → ∃ ex, ex ∈ oneUserStore.exercises ∧ e.date = toDateString ex.date) :=
  ⟨⟨by decide, by decide, by decide, by decide⟩,
   (exercise_date_calendar_string oneUserStore 1 sampleUser "run" "30" "2023-01-15" 0
      1673740800000 30 (by decide) (by decide) (by decide) (by decide) (by decide)
      (by decide) (by decide)).1,
   (exercise_date_calendar_string oneUserStore 1 sampleUser "run" "30" "2023-01-15" 0
      1673740800000 30 (by decide) (by decide) (by decide) (by decide) (by decide)
      (by decide) (by decide)).2.1,
   (exercise_date_calendar_string oneUserStore 1 sampleUser "run" "30" "2023-01-15" 0
      1673740800000 30 (by decide) (by decide) (by decide) (by decide) (by decide)
      (by decide) (by decide)).2.2⟩

/-- C5 counterexample: the negative duration string "-5" passes the handler's
check (isNaN(Number("-5")) is false), so the exercise is stored and answered
instead of failing with the validation error the claim asserts. -/
theorem addExercise_negative_duration_accepted :
    (addExercise oneUserStore 1 "run" "-5" "2023-01-15" 0).1
        = .ok 1 "alice" "Sun Jan 15 2023" (-5) "run"
    ∧ (addExercise oneUserStore 1 "run" "-5" "2023-01-15" 0).1 ≠ .validationError
    ∧ (addExercise oneUserStore 1 "run" "-5" "2023-01-15" 0).2.exercises
        = [⟨2, 1, "run", -5, 1673740800000⟩] :=
  ⟨by decide, by decide, by decide⟩

/-- C5 amended: for an existing user the add-exercise call fails with the 400
validation branch exactly when the description is missing/empty, the
duration is missing/empty, or the duration is not numeric; numeric duration
strings — including negative or fractional ones — pass the check, and
duration "0" with a non-empty description and a parseable date is accepted
and stored as 0. -/
theorem addExercise_validation_iff (s : Store) (userId : Nat) (u : User)
    (desc dur ds : String) (now ms : Int)
    (hfu : findUser s userId = some u) :
    ((addExercise s userId desc dur ds now).1 = .validationError
        ↔ (desc = "" ∨ dur = "" ∨ jsNumberValid dur = false))
    ∧ (desc ≠ "" → ds ≠ "" → jsParseDate ds = some ms →
        (addExercise s userId desc "0" ds now).1
          = .ok u._id u.username (toDateString ms) 0 desc) := by
  constructor
  · by_cases h1 : desc = ""
    · simp [addExercise, hfu, h1]
    · by_cases h2 : dur = ""
      · simp [addExercise, hfu, h1, h2]
      · by_cases h3 : jsNumberValid dur
        · cases hd : (if ds = "" then some now else jsParseDate ds) with
          | none => simp [addExercise, hfu, h1, h2, h3, hd]
          | some ed =>
            cases hp : jsParseInt dur with
            | none => simp [addExercise, hfu, h1, h2, h3, hd, hp]
            | some k => simp [addExercise, hfu, h1, h2, h3, hd, hp]
        · simp [addExercise, hfu, h1, h2, h3]
  · intro hdne hdsne hparse
    have hv : jsNumberValid "0" = true := by decide
    have hp : jsParseInt "0" = some 0 := by decide
    have h0 : ("0" : String) ≠ "" := by decide
    simp [addExercise, hfu, hdne, hdsne, hparse, hv, hp, h0]

/-- Witness for addExercise_validation_iff: empty duration is rejected while
duration "0" is accepted and stored as 0. -/
theorem addExercise_validation_iff_witness :
    findUser oneUserStore 1 = some sampleUser
    ∧ ((addExercise oneUserStore 1 "run" "" "2023-01-15" 0).1 = .validationError
        ↔ (("run" : String) = "" ∨ ("" : String) = "" ∨ jsNumberValid "" = false))
    ∧ (("run" : String) ≠ "" → ("2023-01-15" : String) ≠ ""
        → jsParseDate "2023-01-15" = some 1673740800000
        → (addExercise oneUserStore 1 "run" "0" "2023-01-15" 0).1
            = .ok sampleUser._id sampleUser.username (toDateString 1673740800000) 0 "run")
    ∧ (addExercise oneUserStore 1 "run" "" "2023-01-15" 0).1 = .validationError :=
  ⟨by decide,
   (addExercise_validation_iff oneUserStore 1 sampleUser "run" "" "2023-01-15" 0
      1673740800000 (by decide)).1,
   (addExercise_validation_iff oneUserStore 1 sampleUser "run" "" "2023-01-15" 0
      1673740800000 (by decide)).2,
   by decide⟩

/-- C7: an exercise successfully added for an existing user comes back from a
subsequent unfiltered log call with the same description, duration and
calendar-date string as the add-exercise response. -/
theorem addExercise_getLog_roundtrip (s : Store) (userId : Nat) (u : User)
    (desc dur ds : String) (now ms n : Int)
    (hfu : findUser s userId = some u) (hdesc : desc ≠ "") (hdur : dur ≠ "")
    (hnum : jsNumberValid dur = true) (hn : jsParseInt dur = some n)
    (hms : (if ds = "" then some now else jsParseDate ds) = some ms) :
    (addExercise s userId desc dur ds now).1
        = .ok u._id u.username (toDateString ms) n desc
    ∧ ∃ c log, getLog (addExercise s userId desc dur ds now).2 userId "" "" ""
          = .ok u._id u.username c log
        ∧ (⟨desc, n, toDateString ms⟩ : LogEntry) ∈ log := by
  have hA : addExercise s userId desc dur ds now
      = (.ok u._id u.username (toDateString ms) n desc,
         { s with exercises := s.exercises ++ [⟨s.nextId, userId, desc, n, ms⟩],
                  nextId := s.nextId + 1 }) := by
    simp [addExercise, hfu, hdesc, hdur, hnum, hn, hms]
  refine ⟨by rw [hA], ?_⟩
  rw [hA]
  have hfu2 : findUser
      { s with exercises := s.exercises ++ [⟨s.nextId, userId, desc, n, ms⟩],
               nextId := s.nextId + 1 } userId = some u := hfu
  have h1 : applyLimit "" (matchingSorted
      { s with exercises := s.exercises ++ [⟨s.nextId, userId, desc, n, ms⟩],
               nextId := s.nextId + 1 } userId none none)
      = matchingSorted
          { s with exercises := s.exercises ++ [⟨s.nextId, userId, desc, n, ms⟩],
                   nextId := s.nextId + 1 } userId none none := by
    simp [applyLimit]
  have hG : getLog
      { s with exercises := s.exercises ++ [⟨s.nextId, userId, desc, n, ms⟩],
               nextId := s.nextId + 1 } userId "" "" ""
      = .ok u._id u.username
          ((matchingSorted
              { s with exercises := s.exercises ++ [⟨s.nextId, userId, desc, n, ms⟩],
                       nextId := s.nextId + 1 } userId none none).map formatEntry).length
          ((matchingSorted
              { s with exercises := s.exercises ++ [⟨s.nextId, userId, desc, n, ms⟩],
                       nextId := s.nextId + 1 } userId none none).map formatEntry) := by
    simp [getLog, hfu2, parseBound, h1]
  refine ⟨_, _, hG, ?_⟩
  have he : (⟨s.nextId, userId, desc, n, ms⟩ : Exercise) ∈ matchingSorted
      { s with exercises := s.exercises ++ [⟨s.nextId, userId, desc, n, ms⟩],
               nextId := s.nextId + 1 } userId none none := by
    rw [matchingSorted, (sortByDate_perm _).mem_iff, List.mem_filter]
    exact ⟨by simp, by simp [exerciseMatches]⟩
  exact List.mem_map.mpr ⟨_, he, rfl⟩

/-- Witness for addExercise_getLog_roundtrip: "run"/"30"/"2023-01-15" added
to the one-user store is returned by the unfiltered log. -/
theorem addExercise_getLog_roundtrip_witness :
    (findUser oneUserStore 1 = some sampleUser
      ∧ (if ("2023-01-15" : String) = "" then some (0 : Int)
          else jsParseDate "2023-01-15") = some 1673740800000)
    ∧ (addExercise oneUserStore 1 "run" "30" "2023-01-15" 0).1
        = .ok sampleUser._id sampleUser.username (toDateString 1673740800000) 30 "run"
    ∧ (∃ c log, getLog (addExercise oneUserStore 1 "run" "30" "2023-01-15" 0).2 1 "" "" ""
          = .ok sampleUser._id sampleUser.username c log
        ∧ (⟨"run", 30, toDateString 1673740800000⟩ : LogEntry) ∈ log) :=
  ⟨⟨by decide, by decide⟩,
   (addExercise_getLog_roundtrip oneUserStore 1 sampleUser "run" "30" "2023-01-15" 0
      1673740800000 30 (by decide) (by decide) (by decide) (by decide) (by decide)
      (by decide)).1,
   (addExercise_getLog_roundtrip oneUserStore 1 sampleUser "run" "30" "2023-01-15" 0
      1673740800000 30 (by decide) (by decide) (by decide) (by decide) (by decide)
      (by decide)).2⟩
